import Mathlib

/-!
Verification of the request-routing and asset-serving layer of
`src/main.ts` (homebridge-config-ui-x bootstrap).

The embedding models, per request, exactly the headers, status codes and
body sources that the handler code in `main.ts` sets itself; behaviour
delegated to external collaborators (the fastify static file sender, the
framework's default error handler) is represented as an explicit delegated
outcome, never silently filled in.
-/

namespace UiX

/-- JavaScript template-literal interpolation of a possibly-undefined string
value: `undefined` prints as the literal string "undefined". -/
def jsInterpOpt : Option String → String
  | none => "undefined"
  | some s => s

/-- JavaScript `x || ''` on a possibly-undefined string: `undefined` (and the
empty string itself) yield the empty string. -/
def jsOrEmptyString : Option String → String
  | none => ""
  | some s => if s = "" then "" else s

/-- The per-request `connect-src` function of `main.ts` lines 48-50:
`wss://<host> ws://<host> <cspWsOveride or empty>` where `<host>` is
`req.headers.host` interpolated by a template literal. -/
def connectSrc (host cspWsOveride : Option String) : String :=
  "wss://" ++ jsInterpOpt host ++ " ws://" ++ jsInterpOpt host ++ " "
    ++ jsOrEmptyString cspWsOveride

/-- The full `connect-src` directive value: helmet joins the directive array
entries with single spaces, so the constant entry `'self'` is followed by the
string returned by the per-request function. -/
def connectSrcDirective (host cspWsOveride : Option String) : String :=
  "'self' " ++ connectSrc host cspWsOveride

/-- Stated by the spec (for comparison with `connectSrcDirective`): the host
substring is the host header verbatim, degrading to an empty substring when
the host header is absent. -/
def connectSrcDirectiveSpec (host cspWsOveride : Option String) : String :=
  "'self' wss://" ++ host.getD "" ++ " ws://" ++ host.getD "" ++ " "
    ++ jsOrEmptyString cspWsOveride

/-- Cache-Control value set by `useStaticAssets` setHeaders (line 59) and by
both success branches of the wallpaper handler (lines 80, 84): note the code
writes it without spaces after the commas. -/
def staticCacheControl : String := "public,max-age=31536000,immutable"

/-- Cache-Control value the spec text claims for the immutable class (with
spaces after the commas), for comparison with `staticCacheControl`. -/
def claimedStaticCacheControl : String := "public, max-age=31536000, immutable"

/-- Cache-Control value set by the `GET /` handler (line 65). -/
def noCacheCacheControl : String := "no-cache, no-store, must-revalidate"

/-- Body source a handler selects: a file served by the static sender, raw
bytes read by the handler, or a literal text payload. -/
inductive Body where
  | staticFile (p : String)
  | bytes (b : List Nat)
  | text (s : String)
deriving DecidableEq, Repr

/-- The headers, status and body source the handler code itself sets on a
response. A field left `none` is a header the `main.ts` code never sets on
that response (an external collaborator may still add its own default). -/
structure Response where
  status : Nat
  contentType : Option String
  cacheControl : Option String
  pragma : Option String
  expires : Option String
  body : Body
deriving DecidableEq, Repr

/-- Response produced for a file under the static bundle root: the
`useStaticAssets` options (lines 55-61) only set the long-lived
Cache-Control header. -/
def staticAssetResponse (p : String) : Response :=
  { status := 200
    contentType := none
    cacheControl := some staticCacheControl
    pragma := none
    expires := none
    body := .staticFile p }

/-- The `GET /` handler (lines 63-70): `text/html`, the three no-cache
headers, then `sendFile('index.html')`. -/
def indexHandler : Response :=
  { status := 200
    contentType := some "text/html"
    cacheControl := some noCacheCacheControl
    pragma := some "no-cache"
    expires := some "0"
    body := .staticFile "index.html" }

/-- A filesystem snapshot: maps a path to the file bytes when the path
exists. -/
def Fs : Type := String → Option (List Nat)

/-- `fs.pathExists` against a snapshot. -/
def pathExists (fs : Fs) (p : String) : Bool := (fs p).isSome

/-- The filesystem snapshot with no files. -/
def emptyFs : Fs := fun _ => none

/-- Response of the wallpaper handler's else-branch (lines 83-85,
`loginWallpaper` unset): only Cache-Control is set by the code, the body is
delegated to `sendFile('assets/snapshot.jpg')`. -/
def snapshotDefaultResponse : Response :=
  { status := 200
    contentType := none
    cacheControl := some staticCacheControl
    pragma := none
    expires := none
    body := .staticFile "assets/snapshot.jpg" }

/-- Response of the wallpaper handler when the configured path fails the
existence check (lines 75-78): `res.code(404).send('Not Found')`, issued
before any header-setting statement of the handler runs. -/
def snapshotNotFoundResponse : Response :=
  { status := 404
    contentType := none
    cacheControl := none
    pragma := none
    expires := none
    body := .text "Not Found" }

/-- Response of the wallpaper handler when the configured path passes the
existence check (lines 79-81): `image/jpg` content type, the long-lived
Cache-Control header, and the bytes read from the file as body. -/
def snapshotCustomResponse (b : List Nat) : Response :=
  { status := 200
    contentType := some "image/jpg"
    cacheControl := some staticCacheControl
    pragma := none
    expires := none
    body := .bytes b }

/-- The `GET /assets/snapshot.jpg` handler (lines 73-86), as a function of
the configured wallpaper path and of the filesystem snapshots seen by its two
awaited filesystem calls (`fs.pathExists`, then `fs.readFile`). The first
component collects the messages passed to `logger.error`; an `Except.error`
result is an exception the handler does not catch, propagating to the
framework. JavaScript truthiness makes an empty-string `loginWallpaper`
take the else-branch. -/
def snapshotHandler (loginWallpaper : Option String) (fsAtCheck fsAtRead : Fs) :
    List String × Except String Response :=
  match loginWallpaper with
  | some wp =>
    if wp = "" then
      ([], .ok snapshotDefaultResponse)
    else if !(pathExists fsAtCheck wp) then
      (["Custom Login Wallpaper does not exist: " ++ wp],
       .ok snapshotNotFoundResponse)
    else
      match fsAtRead wp with
      | some b => ([], .ok (snapshotCustomResponse b))
      | none => ([], .error ("ENOENT: " ++ wp))
  | none => ([], .ok snapshotDefaultResponse)

/-- Tests whether the character list `s` begins with the character list
`sub`. -/
def leadsWith : List Char → List Char → Bool
  | [], _ => true
  | _ :: _, [] => false
  | a :: as, b :: bs => a == b && leadsWith as bs

/-- Tests whether `sub` occurs contiguously inside `s`. -/
def hasSubstr : List Char → List Char → Bool
  | [], sub => sub.isEmpty
  | c :: rest, sub => leadsWith sub (c :: rest) || hasSubstr rest sub

/-- String-level contiguous-substring test. -/
def strContains (s sub : String) : Bool := hasSubstr s.data sub.data

/-- The value passed to `setGlobalPrefix` on line 89. -/
def globalApiRoot : String := "/api"

/-- Modelled from the spec: the `SpaFilter` exception filter installed on
line 104 lives in `src/core/spa/spa.filter`, which is not part of the
sources here. Per the spec it serves the shell document for an unmatched
request outside the API prefix subtree and must not intercept outcomes for
paths under the API prefix. -/
def spaFilterServesShell (path : String) : Bool :=
  !(leadsWith globalApiRoot.data path.data)

/-- Outcome of a request that matched no explicit route, static asset or API
route. -/
inductive FallbackOutcome where
  | shellDocument (r : Response)
  | apiError (status : Nat)
deriving DecidableEq, Repr

/-- Modelled from the spec: dispatch of an unmatched request through the
`SpaFilter` (line 104). Outside the API subtree the shell document is served
with the same headers as `GET /`; inside it the API layer's 404 surfaces
untouched. -/
def unmatchedOutcome (path : String) : FallbackOutcome :=
  if spaFilterServesShell path then .shellDocument indexHandler
  else .apiError 404

/-- JavaScript `x || d` on a possibly-undefined number: `undefined` and `0`
are falsy and yield the default. -/
def jsOrNatDefault (p : Option Nat) (d : Nat) : Nat :=
  match p with
  | none => d
  | some 0 => d
  | some n => n

/-- Port passed to `app.listen` on line 107: `configService.ui.port || 8080`. -/
def listenPort (uiPort : Option Nat) : Nat := jsOrNatDefault uiPort 8080

/-- Bind address passed to `app.listen` on line 107. -/
def listenHost : String := "0.0.0.0"

/-- JavaScript template-literal interpolation of a possibly-undefined
number. -/
def jsInterpOptNat : Option Nat → String
  | none => "undefined"
  | some n => toString n

/-- The startup line logged on line 106: note it interpolates
`configService.ui.port` itself, not the defaulted value passed to
`app.listen`. -/
def startupLogLine (version : String) (uiPort : Option Nat) : String :=
  "Console v" ++ version ++ " is listening on port " ++ jsInterpOptNat uiPort

/-- Immutable-long-cache policy class: exactly the headers the static-asset
and wallpaper success paths set. -/
def usesImmutableClass (r : Response) : Prop :=
  r.cacheControl = some staticCacheControl ∧ r.pragma = none ∧ r.expires = none

/-- No-cache policy class: exactly the headers the shell-document handler
sets. -/
def usesNoCacheClass (r : Response) : Prop :=
  r.cacheControl = some noCacheCacheControl ∧ r.pragma = some "no-cache"
    ∧ r.expires = some "0"

/-- A response on which the handler code set none of the cache-policy
headers. -/
def noCachePolicyHeaders (r : Response) : Prop :=
  r.cacheControl = none ∧ r.pragma = none ∧ r.expires = none

/-- The responses the `main.ts` handlers produce: static-bundle files, the
shell document, and every answered outcome of the wallpaper handler. -/
def producedByCore (r : Response) : Prop :=
  (∃ p, r = staticAssetResponse p) ∨ r = indexHandler ∨
    (∃ lw fsc fsr, (snapshotHandler lw fsc fsr).2 = Except.ok r)

/-- A concrete filesystem snapshot holding a single wallpaper file. -/
def wallFs : Fs := fun p => if p = "/data/wall.jpg" then some [7] else none

theorem leadsWith_append_self (l t : List Char) : leadsWith l (l ++ t) = true := by
  induction l with
  | nil => rfl
  | cons a as ih => simp [leadsWith, ih]

theorem hasSubstr_of_leadsWith (s sub : List Char) (h : leadsWith sub s = true) :
    hasSubstr s sub = true := by
  cases s with
  | nil =>
    cases sub with
    | nil => rfl
    | cons b bs => simp [leadsWith] at h
  | cons c rest => simp [hasSubstr, h]

theorem hasSubstr_append_left (s t sub : List Char) (h : hasSubstr t sub = true) :
    hasSubstr (s ++ t) sub = true := by
  induction s with
  | nil => simpa using h
  | cons c cs ih => simp [hasSubstr, ih]

theorem hasSubstr_self_append (sub t : List Char) : hasSubstr (sub ++ t) sub = true :=
  hasSubstr_of_leadsWith _ _ (leadsWith_append_self sub t)

theorem hasSubstr_self (l : List Char) : hasSubstr l l = true := by
  simpa using hasSubstr_self_append l []

theorem strContains_append_self_right (pre sub : String) :
    strContains (pre ++ sub) sub = true := by
  unfold strContains
  rw [String.data_append]
  exact hasSubstr_append_left _ _ _ (hasSubstr_self _)

theorem strContains_append_three (pre mid suf : String) :
    strContains (pre ++ mid ++ suf) mid = true := by
  unfold strContains
  have hd : (pre ++ mid ++ suf).data = pre.data ++ (mid.data ++ suf.data) := by
    simp [String.data_append]
  rw [hd]
  exact hasSubstr_append_left _ _ _ (hasSubstr_self_append _ _)

/-- Every answered (non-exception) outcome of the wallpaper handler is one of
three responses: the delegated default, the 404, or a custom success carrying
the bytes read. -/
theorem snapshotHandler_ok_cases (lw : Option String) (fsc fsr : Fs) (r : Response)
    (h : (snapshotHandler lw fsc fsr).2 = Except.ok r) :
    r = snapshotDefaultResponse ∨ r = snapshotNotFoundResponse
      ∨ ∃ b, r = snapshotCustomResponse b := by
  cases lw with
  | none =>
    simp [snapshotHandler] at h
    exact Or.inl h.symm
  | some wp =>
    by_cases hwp : wp = ""
    · simp [snapshotHandler, hwp] at h
      exact Or.inl h.symm
    · cases hex : pathExists fsc wp with
      | false =>
        simp [snapshotHandler, hwp, hex] at h
        exact Or.inr (Or.inl h.symm)
      | true =>
        cases hb : fsr wp with
        | none => simp [snapshotHandler, hwp, hex, hb] at h
        | some b =>
          simp [snapshotHandler, hwp, hex, hb] at h
          exact Or.inr (Or.inr ⟨b, h.symm⟩)

/-- Claim C1, counterexample. The claim states that an absent host header
degrades to an empty host substring; the template literal in `main.ts` lines
48-50 instead interpolates the JavaScript value `undefined` as the literal
string "undefined", so the directive for a host-less request differs from the
one the claim describes. -/
theorem c1_counterexample :
    connectSrcDirective none none = "'self' wss://undefined ws://undefined "
      ∧ connectSrcDirectiveSpec none none = "'self' wss:// ws:// "
      ∧ connectSrcDirective none none ≠ connectSrcDirectiveSpec none none := by
  refine ⟨rfl, rfl, ?_⟩
  decide

/-- Claim C1, amended: when the host header is present the `connect-src`
directive is `'self' wss://<host> ws://<host> <override-or-empty>` with the
host taken verbatim, and the worked example for `example.com:8080` holds;
when the host header is absent the host substring is the literal string
"undefined" (JavaScript template-literal interpolation of `undefined`), not
the empty string. -/
theorem c1_amended :
    (∀ (h : String) (ov : Option String),
        connectSrcDirective (some h) ov
          = "'self' wss://" ++ h ++ " ws://" ++ h ++ " " ++ jsOrEmptyString ov)
      ∧ (∀ ov : Option String,
        connectSrcDirective none ov
          = "'self' wss://undefined ws://undefined " ++ jsOrEmptyString ov)
      ∧ connectSrcDirective (some "example.com:8080") none
          = "'self' wss://example.com:8080 ws://example.com:8080 " := by
  refine ⟨?_, ?_, rfl⟩
  · intro h ov
    simp only [connectSrcDirective, connectSrc, jsInterpOpt]
    simp only [← String.append_assoc]
    rw [show ("'self' " ++ "wss://" : String) = "'self' wss://" from rfl]
  · intro ov
    simp only [connectSrcDirective, connectSrc, jsInterpOpt]
    simp only [← String.append_assoc]
    rw [show ("'self' " ++ "wss://" ++ "undefined" ++ " ws://" ++ "undefined"
      ++ " " : String) = "'self' wss://undefined ws://undefined " from rfl]

/-- Claim C2: a request whose path is under the `/api` prefix is never
answered by the SPA fallback; its unmatched outcome is the API layer's 404,
not the shell document. -/
theorem c2_api_not_intercepted (path : String)
    (h : leadsWith globalApiRoot.data path.data = true) :
    unmatchedOutcome path = .apiError 404 := by
  simp [unmatchedOutcome, spaFilterServesShell, h]

/-- Claim C2, witness at the concrete unmatched path `/api/does-not-exist`. -/
theorem c2_witness :
    leadsWith globalApiRoot.data "/api/does-not-exist".data = true
      ∧ unmatchedOutcome "/api/does-not-exist" = .apiError 404 :=
  ⟨by decide, c2_api_not_intercepted "/api/does-not-exist" (by decide)⟩

/-- Claim C6: the `GET /` handler serves the shell document `index.html`
with `Content-Type: text/html` and exactly the no-cache header set
`Cache-Control: no-cache, no-store, must-revalidate`, `Pragma: no-cache`,
`Expires: 0`, and carries no header of the immutable class. -/
theorem c6_index_no_cache :
    indexHandler.contentType = some "text/html"
      ∧ indexHandler.cacheControl = some "no-cache, no-store, must-revalidate"
      ∧ indexHandler.pragma = some "no-cache"
      ∧ indexHandler.expires = some "0"
      ∧ indexHandler.body = .staticFile "index.html"
      ∧ indexHandler.status = 200
      ∧ usesNoCacheClass indexHandler
      ∧ ¬ usesImmutableClass indexHandler := by
  refine ⟨rfl, rfl, rfl, rfl, rfl, rfl, ⟨rfl, rfl, rfl⟩, ?_⟩
  unfold usesImmutableClass indexHandler staticCacheControl noCacheCacheControl
  decide

/-- Claim C3: with `loginWallpaper` set to a path missing from the
per-request filesystem snapshot, the handler logs exactly one error naming
the missing path, answers (rather than throws) with status 404 and plain
body "Not Found", and a later request against a snapshot where the path
exists succeeds — existence is re-checked from the request's own snapshot,
never from a cached result. -/
theorem c3_missing_wallpaper (wp : String) (hwp : wp ≠ "") (fs fsLater : Fs)
    (hmiss : fs wp = none) (b : List Nat) (hlater : fsLater wp = some b) :
    snapshotHandler (some wp) fs fs
        = (["Custom Login Wallpaper does not exist: " ++ wp],
           Except.ok snapshotNotFoundResponse)
      ∧ snapshotNotFoundResponse.status = 404
      ∧ snapshotNotFoundResponse.body = .text "Not Found"
      ∧ strContains ("Custom Login Wallpaper does not exist: " ++ wp) wp = true
      ∧ snapshotHandler (some wp) fsLater fsLater
          = ([], Except.ok (snapshotCustomResponse b)) := by
  refine ⟨?_, rfl, rfl, strContains_append_self_right _ _, ?_⟩
  · simp [snapshotHandler, pathExists, hwp, hmiss]
  · simp [snapshotHandler, pathExists, hwp, hlater]

/-- Claim C3, witness: the wallpaper `/data/wall.jpg` missing from an empty
filesystem yields the logged 404, and present in `wallFs` yields the bytes. -/
theorem c3_witness :
    snapshotHandler (some "/data/wall.jpg") emptyFs emptyFs
        = (["Custom Login Wallpaper does not exist: " ++ "/data/wall.jpg"],
           Except.ok snapshotNotFoundResponse)
      ∧ snapshotNotFoundResponse.status = 404
      ∧ snapshotNotFoundResponse.body = .text "Not Found"
      ∧ strContains ("Custom Login Wallpaper does not exist: " ++ "/data/wall.jpg")
          "/data/wall.jpg" = true
      ∧ snapshotHandler (some "/data/wall.jpg") wallFs wallFs
          = ([], Except.ok (snapshotCustomResponse [7])) :=
  c3_missing_wallpaper "/data/wall.jpg" (by decide) emptyFs wallFs rfl [7] (by decide)

/-- Claim C4, counterexample. The claim states both success paths carry
`Content-Type: image/jpg`; in the unset-wallpaper branch (lines 83-85) the
handler sets only Cache-Control and delegates the body to
`sendFile('assets/snapshot.jpg')` without setting any content type, so the
`image/jpg` value appears only in the custom-wallpaper branch. -/
theorem c4_counterexample :
    (snapshotHandler none emptyFs emptyFs).2 = Except.ok snapshotDefaultResponse
      ∧ snapshotDefaultResponse.contentType = none
      ∧ snapshotDefaultResponse.contentType ≠ some "image/jpg" := by
  refine ⟨rfl, rfl, ?_⟩
  decide

/-- Claim C4, amended: with `loginWallpaper` unset the handler serves the
bundled `assets/snapshot.jpg` as a static file with the long-lived
Cache-Control header and sets no Content-Type itself (the type is left to
the static file sender); with it set to an existing file the response body
is that file's bytes with `Content-Type: image/jpg` and the same long-lived
Cache-Control header. -/
theorem c4_amended :
    (∀ fs : Fs, (snapshotHandler none fs fs).2 = Except.ok snapshotDefaultResponse)
      ∧ snapshotDefaultResponse.cacheControl = some staticCacheControl
      ∧ snapshotDefaultResponse.body = .staticFile "assets/snapshot.jpg"
      ∧ snapshotDefaultResponse.contentType = none
      ∧ (∀ (wp : String) (fs : Fs) (b : List Nat), wp ≠ "" → fs wp = some b →
          (snapshotHandler (some wp) fs fs).2 = Except.ok (snapshotCustomResponse b))
      ∧ (∀ b, (snapshotCustomResponse b).contentType = some "image/jpg"
          ∧ (snapshotCustomResponse b).cacheControl = some staticCacheControl
          ∧ (snapshotCustomResponse b).body = .bytes b) := by
  refine ⟨fun fs => rfl, rfl, rfl, rfl, ?_, fun b => ⟨rfl, rfl, rfl⟩⟩
  intro wp fs b hwp hb
  simp [snapshotHandler, pathExists, hwp, hb]

/-- Claim C4, witness at the concrete wallpaper file in `wallFs`. -/
theorem c4_witness :
    (snapshotHandler (some "/data/wall.jpg") wallFs wallFs).2
      = Except.ok (snapshotCustomResponse [7]) :=
  c4_amended.2.2.2.2.1 "/data/wall.jpg" wallFs [7] (by decide) (by decide)

/-- Claim C5, counterexample. The claim states the immutable-class
Cache-Control value is "public, max-age=31536000, immutable"; the code (lines
59, 80, 84) writes "public,max-age=31536000,immutable" with no space after
either comma. -/
theorem c5_counterexample :
    (staticAssetResponse "app.js").cacheControl = some staticCacheControl
      ∧ claimedStaticCacheControl = "public, max-age=31536000, immutable"
      ∧ staticCacheControl ≠ claimedStaticCacheControl := by
  refine ⟨rfl, rfl, ?_⟩
  decide

/-- Claim C5, amended: every response of the immutable class — any file
under the static bundle root and every status-200 outcome of the wallpaper
handler, default or custom — carries the Cache-Control value
"public,max-age=31536000,immutable" (no spaces after the commas). -/
theorem c5_amended :
    staticCacheControl = "public,max-age=31536000,immutable"
      ∧ (∀ p, (staticAssetResponse p).cacheControl = some staticCacheControl)
      ∧ (∀ (lw : Option String) (fsc fsr : Fs) (r : Response),
          (snapshotHandler lw fsc fsr).2 = Except.ok r → r.status = 200 →
            r.cacheControl = some staticCacheControl) := by
  refine ⟨rfl, fun p => rfl, ?_⟩
  intro lw fsc fsr r h hs
  rcases snapshotHandler_ok_cases lw fsc fsr r h with h1 | h1 | ⟨b, h1⟩
  · rw [h1]; rfl
  · rw [h1] at hs; exact absurd hs (by decide)
  · rw [h1]; rfl

/-- Claim C5, witness: the default wallpaper outcome carries the immutable
Cache-Control value. -/
theorem c5_witness :
    snapshotDefaultResponse.cacheControl = some staticCacheControl :=
  c5_amended.2.2 none emptyFs emptyFs snapshotDefaultResponse rfl rfl

/-- Claim C7, counterexample. The claim states every core response carries
cache headers from exactly one of the two policy classes; the wallpaper
handler's 404 (lines 74-78) is a core response carrying the headers of
neither class. -/
theorem c7_counterexample :
    (snapshotHandler (some "/missing.jpg") emptyFs emptyFs).2
        = Except.ok snapshotNotFoundResponse
      ∧ ¬ usesImmutableClass snapshotNotFoundResponse
      ∧ ¬ usesNoCacheClass snapshotNotFoundResponse := by
  refine ⟨rfl, ?_, ?_⟩
  · unfold usesImmutableClass snapshotNotFoundResponse staticCacheControl
    decide
  · unfold usesNoCacheClass snapshotNotFoundResponse noCacheCacheControl
    decide

/-- Claim C7, amended: every response the core produces carries cache
headers from at most one policy class — the immutable class, the no-cache
class, or (for the wallpaper 404 only) no cache-policy header at all — and
no response mixes headers of both classes. -/
theorem c7_amended (r : Response) (h : producedByCore r) :
    (usesImmutableClass r ∧ ¬ usesNoCacheClass r)
      ∨ (usesNoCacheClass r ∧ ¬ usesImmutableClass r)
      ∨ (noCachePolicyHeaders r ∧ ¬ usesImmutableClass r ∧ ¬ usesNoCacheClass r) := by
  have himm : ¬ (staticCacheControl = noCacheCacheControl) := by decide
  rcases h with ⟨p, rfl⟩ | rfl | ⟨lw, fsc, fsr, hh⟩
  · refine Or.inl ⟨⟨rfl, rfl, rfl⟩, ?_⟩
    intro hc
    exact himm (Option.some.injEq .. ▸ hc.1)
  · refine Or.inr (Or.inl ⟨⟨rfl, rfl, rfl⟩, ?_⟩)
    intro hc
    exact himm (Option.some.inj hc.1).symm
  · rcases snapshotHandler_ok_cases lw fsc fsr _ hh with h1 | h1 | ⟨b, h1⟩ <;> subst h1
    · refine Or.inl ⟨⟨rfl, rfl, rfl⟩, fun hc => himm (Option.some.inj hc.1)⟩
    · refine Or.inr (Or.inr ⟨⟨rfl, rfl, rfl⟩, fun hc => ?_, fun hc => ?_⟩)
      · exact Option.noConfusion hc.1
      · exact Option.noConfusion hc.1
    · refine Or.inl ⟨⟨rfl, rfl, rfl⟩, fun hc => himm (Option.some.inj hc.1)⟩

/-- Claim C7, witness: the shell-document response is produced by the core
and falls in the no-cache class alone. -/
theorem c7_witness :
    usesNoCacheClass indexHandler ∧ ¬ usesImmutableClass indexHandler := by
  rcases c7_amended indexHandler (Or.inr (Or.inl rfl)) with h | h | h
  · exact absurd h.1.1 (by decide)
  · exact ⟨h.1, h.2⟩
  · exact absurd h.1.1 (by decide)

/-- Claim C8, counterexample. The claim states every request-time failure in
the core handlers is handled locally (logged and mapped to a status), even a
file disappearing between the existence check and the read; in the code the
`fs.readFile` rejection of that window is uncaught — nothing is logged and
no status is set, the exception propagates to the framework. -/
theorem c8_counterexample :
    snapshotHandler (some "/data/wall.jpg") wallFs emptyFs
        = ([], Except.error "ENOENT: /data/wall.jpg")
      ∧ (snapshotHandler (some "/data/wall.jpg") wallFs emptyFs).1 = [] := by
  exact ⟨rfl, rfl⟩

/-- Claim C8, amended: when the existence check and the read see the same
filesystem snapshot the handler always answers locally (no exception
escapes), but when the configured file disappears between the two awaited
calls the handler propagates an exception to the framework with nothing
logged and no status mapped by the core. -/
theorem c8_amended :
    (∀ (lw : Option String) (fs : Fs), ∃ r, (snapshotHandler lw fs fs).2 = Except.ok r)
      ∧ (∀ (wp : String) (fsc fsr : Fs) (b : List Nat),
          wp ≠ "" → fsc wp = some b → fsr wp = none →
            snapshotHandler (some wp) fsc fsr = ([], Except.error ("ENOENT: " ++ wp))) := by
  constructor
  · intro lw fs
    cases lw with
    | none => exact ⟨snapshotDefaultResponse, rfl⟩
    | some wp =>
      by_cases hwp : wp = ""
      · exact ⟨snapshotDefaultResponse, by simp [snapshotHandler, hwp]⟩
      · cases hb : fs wp with
        | none =>
          exact ⟨snapshotNotFoundResponse, by simp [snapshotHandler, pathExists, hwp, hb]⟩
        | some b =>
          exact ⟨snapshotCustomResponse b, by simp [snapshotHandler, pathExists, hwp, hb]⟩
  · intro wp fsc fsr b hwp hc hr
    simp [snapshotHandler, pathExists, hwp, hc, hr]

/-- Claim C8, witness: the race window instantiated at the concrete wallpaper
present in `wallFs` at check time and absent at read time. -/
theorem c8_witness :
    snapshotHandler (some "/data/wall.jpg") wallFs emptyFs
      = ([], Except.error ("ENOENT: " ++ "/data/wall.jpg")) :=
  c8_amended.2 "/data/wall.jpg" wallFs emptyFs [7] (by decide) (by decide) rfl

/-- Claim C9, counterexample. The claim states the startup log line contains
the port the server actually listens on; line 106 interpolates
`configService.ui.port` itself, so with a configured port of 0 the server
binds 8080 while the log line reports port 0 and never mentions 8080. -/
theorem c9_counterexample :
    listenPort (some 0) = 8080
      ∧ startupLogLine "1.0.0" (some 0) = "Console v1.0.0 is listening on port 0"
      ∧ strContains (startupLogLine "1.0.0" (some 0)) "8080" = false := by
  refine ⟨rfl, rfl, ?_⟩
  decide

/-- Claim C9, amended: the server binds `0.0.0.0` on the configured port,
defaulting to 8080 when that port is unset or zero, and the startup log line
contains the application version and the configured port value as
interpolated — which equals the bound port exactly when the configured port
is set and nonzero. -/
theorem c9_amended (version : String) (uiPort : Option Nat) :
    listenHost = "0.0.0.0"
      ∧ listenPort none = 8080
      ∧ listenPort (some 0) = 8080
      ∧ (∀ n : Nat, n ≠ 0 → listenPort (some n) = n)
      ∧ strContains (startupLogLine version uiPort) version = true
      ∧ strContains (startupLogLine version uiPort) (jsInterpOptNat uiPort) = true
      ∧ (∀ n : Nat, n ≠ 0 → jsInterpOptNat (some n) = toString (listenPort (some n))) := by
  refine ⟨rfl, rfl, rfl, ?_, ?_, ?_, ?_⟩
  · intro n hn
    cases n with
    | zero => exact absurd rfl hn
    | succ m => rfl
  · have h1 : startupLogLine version uiPort
        = "Console v" ++ version ++ (" is listening on port " ++ jsInterpOptNat uiPort) := by
      simp [startupLogLine, String.append_assoc]
    rw [h1]
    exact strContains_append_three "Console v" version _
  · exact strContains_append_self_right _ _
  · intro n hn
    cases n with
    | zero => exact absurd rfl hn
    | succ m => rfl

/-- Claim C9, witness at version "1.0.0" and configured port 8581. -/
theorem c9_witness :
    strContains (startupLogLine "1.0.0" (some 8581)) "1.0.0" = true
      ∧ strContains (startupLogLine "1.0.0" (some 8581)) (jsInterpOptNat (some 8581)) = true
      ∧ listenPort (some 8581) = 8581
      ∧ listenPort (some 0) = 8080 :=
  ⟨(c9_amended "1.0.0" (some 8581)).2.2.2.2.1,
   (c9_amended "1.0.0" (some 8581)).2.2.2.2.2.1,
   (c9_amended "1.0.0" (some 8581)).2.2.2.1 8581 (by decide),
   (c9_amended "1.0.0" (some 8581)).2.2.1⟩

/-- Claim C10: the 404 sent when the configured wallpaper path is missing is
issued before any header-setting statement of the handler runs, so it
carries no Cache-Control, Pragma, Expires or Content-Type value and belongs
to neither cache-policy class. -/
theorem c10_not_found_frame (wp : String) (hwp : wp ≠ "") (fsc fsr : Fs)
    (hmiss : fsc wp = none) :
    (snapshotHandler (some wp) fsc fsr).2 = Except.ok snapshotNotFoundResponse
      ∧ snapshotNotFoundResponse.cacheControl = none
      ∧ snapshotNotFoundResponse.pragma = none
      ∧ snapshotNotFoundResponse.expires = none
      ∧ snapshotNotFoundResponse.contentType = none
      ∧ snapshotNotFoundResponse.status = 404
      ∧ ¬ usesImmutableClass snapshotNotFoundResponse
      ∧ ¬ usesNoCacheClass snapshotNotFoundResponse := by
  refine ⟨?_, rfl, rfl, rfl, rfl, rfl, ?_, ?_⟩
  · simp [snapshotHandler, pathExists, hwp, hmiss]
  · intro hc
    exact Option.noConfusion hc.1
  · intro hc
    exact Option.noConfusion hc.1

/-- Claim C10, witness at the concrete missing path `/gone.jpg`. -/
theorem c10_witness :
    (snapshotHandler (some "/gone.jpg") emptyFs emptyFs).2
        = Except.ok snapshotNotFoundResponse
      ∧ snapshotNotFoundResponse.cacheControl = none
      ∧ snapshotNotFoundResponse.pragma = none
      ∧ snapshotNotFoundResponse.expires = none
      ∧ snapshotNotFoundResponse.contentType = none
      ∧ snapshotNotFoundResponse.status = 404
      ∧ ¬ usesImmutableClass snapshotNotFoundResponse
      ∧ ¬ usesNoCacheClass snapshotNotFoundResponse :=
  c10_not_found_frame "/gone.jpg" (by decide) emptyFs emptyFs rfl

end UiX
